import Mathlib

/-
Shallow embedding of the searchermax repository.

Modelling conventions, used uniformly below:
  - JavaScript string fields that may be `undefined`, `null`, or `""` (all
    falsy and treated alike by the code's truthiness tests) are modelled as
    `Option String`, `none` standing for a falsy value.
  - An external HTTP call that may reject (throw) is modelled by taking the
    call's outcome as an input of the function performing the call: an
    adapter receives the fetched-and-parsed payload as `Except Unit payload`
    (`Except.error ()` = the fetch or JSON parse threw), and a handler
    receives each adapter's input plus the chat-model call's outcome.
  - `String.prototype.includes` / `startsWith` / `slice` are modelled
    character-wise (all data the claims touch is code-point faithful).
-/

-- Character-wise substring test: `occursWithin w s` says the word `w`
-- occurs contiguously inside `s` (JS `s.includes(w)`).
def occursWithin : List Char → List Char → Bool
  | w, [] => w.isEmpty
  | w, s@(_ :: rest) => w.isPrefixOf s || occursWithin w rest

-- JS `s.includes(w)` on strings.
def containsStr (s w : String) : Bool := occursWithin w.toList s.toList

-- JS `s.toLowerCase().includes(w.toLowerCase())`.
def containsCI (s w : String) : Bool :=
  occursWithin (w.toList.map Char.toLower) (s.toList.map Char.toLower)

-- JS `s.slice(0, n)`.
def strTake (n : Nat) (s : String) : String := String.mk (s.toList.take n)

-- The characters before the first occurrence of the (non-empty) separator,
-- or the whole list when it does not occur: JS `s.split(sep)[0]`.
def beforeSep (sep : List Char) : List Char → List Char
  | [] => []
  | c :: cs => if sep.isPrefixOf (c :: cs) then [] else c :: beforeSep sep cs

/-- Normalized search-result record produced by the adapters of the two
unnamed search handlers (`title`, `snippet`, `url`, `image`, `source`). -/
structure SearchResult where
  title : Option String
  snippet : Option String
  url : Option String
  image : Option String
  source : String
deriving DecidableEq, Repr

/-- Fields of the DuckDuckGo Instant-Answer payload the code reads. -/
structure DuckTopic where
  text : Option String
  firstURL : Option String
  iconURL : Option String
deriving DecidableEq, Repr

structure DuckData where
  relatedTopics : Option (List DuckTopic)
  abstractText : Option String
  heading : String
  abstractURL : Option String
  image : Option String
deriving DecidableEq, Repr

/-- Reshaping of a DuckDuckGo payload, identical in `part_000` and
`part_001`: push one result per `RelatedTopics` entry having a truthy
`Text`, `unshift` an abstract result when `AbstractText` is truthy, then
`slice(0, 5)`. -/
def duckResults (d : DuckData) : List SearchResult :=
  let fromTopics :=
    (d.relatedTopics.getD []).filterMap fun t =>
      t.text.map fun txt =>
        { title := some (String.mk (beforeSep " - ".toList txt.toList))
          snippet := some txt
          url := t.firstURL
          image := t.iconURL.map (fun u => "https://duckduckgo.com" ++ u)
          source := "DuckDuckGo" : SearchResult }
  let withAbstract :=
    match d.abstractText with
    | none => fromTopics
    | some abs =>
      { title := some d.heading
        snippet := some abs
        url := d.abstractURL
        image := d.image.map (fun u => "https://duckduckgo.com" ++ u)
        source := "DuckDuckGo" : SearchResult } :: fromTopics
  withAbstract.take 5

/-- Fields of one Reddit search hit the code reads. -/
structure RedditPost where
  title : Option String
  selftext : Option String
  url : Option String
  permalink : String
  thumbnail : Option String
deriving DecidableEq, Repr

/-- Reshaping of one Reddit post, identical in `part_000` and `part_001`:
`selftext?.slice(0,200) || url || ""`, permalink-based URL, thumbnail kept
only when it starts with "http". -/
def redditPostResult (p : RedditPost) : SearchResult :=
  { title := p.title
    snippet := some (match p.selftext with
      | some t => strTake 200 t
      | none => p.url.getD "")
    url := some ("https://reddit.com" ++ p.permalink)
    image := match p.thumbnail with
      | some t => if "http".toList.isPrefixOf t.toList then some t else none
      | none => none
    source := "Reddit" }

/-- Fields of the Wikipedia summary payload the code reads. -/
structure WikiData where
  title : Option String
  extract : Option String
  pageURL : Option String
  thumbnail : Option String
deriving DecidableEq, Repr

/-- Fields of one GNews article the code reads. -/
structure NewsArticle where
  title : Option String
  description : Option String
  url : Option String
  image : Option String
  sourceName : Option String
deriving DecidableEq, Repr

namespace Part000

/-- From `src/unnamed/part_000`: `searchDuckDuckGo` has no try/catch, so a
fetch/parse rejection propagates to the caller. -/
def searchDuckDuckGo (fetched : Except Unit DuckData) : Except Unit (List SearchResult) :=
  fetched.map duckResults

/-- From `src/unnamed/part_000`: `searchReddit` catches every failure and
returns `[]`; `data.data?.children || []`. -/
def searchReddit (fetched : Except Unit (Option (List RedditPost))) : List SearchResult :=
  match fetched with
  | .error _ => []
  | .ok children => (children.getD []).map redditPostResult

/-- From `src/unnamed/part_000`: `searchWikipedia` catches every failure and
returns `[]`; a non-ok HTTP status also yields `[]`. -/
def searchWikipedia (fetched : Except Unit (Bool × WikiData)) : List SearchResult :=
  match fetched with
  | .error _ => []
  | .ok (resOk, d) =>
    if resOk then
      [{ title := d.title
         snippet := some (d.extract.getD "")
         url := d.pageURL
         image := d.thumbnail
         source := "Wikipedia" }]
    else []

/-- From `src/unnamed/part_000`: `searchNews` catches every failure and
returns `[]`; non-ok status yields `[]`; `articles || []`. -/
def searchNews (fetched : Except Unit (Bool × Option (List NewsArticle))) : List SearchResult :=
  match fetched with
  | .error _ => []
  | .ok (resOk, arts) =>
    if resOk then
      (arts.getD []).map fun a =>
        { title := some (a.title.getD "Untitled")
          snippet := some (a.description.getD "")
          url := a.url
          image := a.image
          source := a.sourceName.getD "News" : SearchResult }
    else []

inductive SBody where
  | success (reply : String) (sources : List SearchResult) (images : List String) (summary : String)
  | failure (error : String)
  | preflight
deriving DecidableEq, Repr

structure SResp where
  status : Nat
  body : SBody
deriving DecidableEq, Repr

def fallbackReply : String := "Here’s what I found online 👇"

/-- Handler of `src/unnamed/part_000`.  `query` is the parsed body's `query`
field (`none` = missing, unparsable, or empty).  `geminiKey` says whether
`GEMINI_API_KEY` is set; `geminiSummary` is the summarization call's outcome
(its try/catch keeps the fallback reply on a throw).  Of the four adapters,
only `searchDuckDuckGo` can reject, which makes `Promise.all` reject and
lands in the outer catch (500). -/
def handler (method : String) (query : Option String)
    (duckFetch : Except Unit DuckData)
    (redditFetch : Except Unit (Option (List RedditPost)))
    (wikiFetch : Except Unit (Bool × WikiData))
    (newsFetch : Except Unit (Bool × Option (List NewsArticle)))
    (geminiKey : Bool) (geminiSummary : Except Unit String) : SResp :=
  if method == "OPTIONS" then ⟨200, .preflight⟩
  else if method != "POST" then ⟨405, .failure "Method not allowed"⟩
  else
    match query with
    | none => ⟨400, .failure "Missing query."⟩
    | some q =>
      match searchDuckDuckGo duckFetch with
      | .error _ => ⟨500, .failure "Failed to fetch or summarize results."⟩
      | .ok duck =>
        let reddit := searchReddit redditFetch
        let wiki := searchWikipedia wikiFetch
        let news := searchNews newsFetch
        let sources := (wiki ++ news ++ reddit ++ duck).take 10
        let reply :=
          if geminiKey then
            match geminiSummary with
            | .ok t => t
            | .error _ => fallbackReply
          else fallbackReply
        let images := ((sources.filter fun s => s.image.isSome).filterMap fun s => s.image).take 6
        ⟨200, .success reply sources images
           ("Fetched " ++ toString sources.length ++ " results for \"" ++ q ++ "\".")⟩

end Part000

namespace Part001

/-- From `src/unnamed/part_001`: same DuckDuckGo reshaping, no try/catch. -/
def searchDuckDuckGo (fetched : Except Unit DuckData) : Except Unit (List SearchResult) :=
  fetched.map duckResults

/-- From `src/unnamed/part_001`: `searchReddit` has no try/catch, so a
rejection propagates; `data.data?.children || []`. -/
def searchReddit (fetched : Except Unit (Option (List RedditPost))) : Except Unit (List SearchResult) :=
  fetched.map fun children => (children.getD []).map redditPostResult

/-- From `src/unnamed/part_001`: `searchWikipedia` has no try/catch; a non-ok
status yields `[]`, a rejection propagates.  Note `snippet: data.extract`
is copied as-is (no `|| ""`). -/
def searchWikipedia (fetched : Except Unit (Bool × WikiData)) : Except Unit (List SearchResult) :=
  fetched.map fun r =>
    if r.1 then
      [{ title := r.2.title
         snippet := r.2.extract
         url := r.2.pageURL
         image := r.2.thumbnail
         source := "Wikipedia" }]
    else []

/-- From `src/unnamed/part_001`: `searchNews` catches every failure and
returns `[]`; note `title: a.title` is copied as-is. -/
def searchNews (fetched : Except Unit (Bool × Option (List NewsArticle))) : List SearchResult :=
  match fetched with
  | .error _ => []
  | .ok (resOk, arts) =>
    if resOk then
      (arts.getD []).map fun a =>
        { title := a.title
          snippet := some (a.description.getD "")
          url := a.url
          image := a.image
          source := a.sourceName.getD "News" : SearchResult }
    else []

inductive S1Body where
  | success (sources : List SearchResult) (summary : String)
  | failure (error : String)
  | preflight
deriving DecidableEq, Repr

structure S1Resp where
  status : Nat
  body : S1Body
deriving DecidableEq, Repr

/-- Handler of `src/unnamed/part_001`.  Three of its four adapters
(DuckDuckGo, Reddit, Wikipedia) can reject, in which case `Promise.all`
rejects and the outer catch answers 500. -/
def handler (method : String) (query : Option String)
    (duckFetch : Except Unit DuckData)
    (redditFetch : Except Unit (Option (List RedditPost)))
    (wikiFetch : Except Unit (Bool × WikiData))
    (newsFetch : Except Unit (Bool × Option (List NewsArticle))) : S1Resp :=
  if method == "OPTIONS" then ⟨200, .preflight⟩
  else if method != "POST" then ⟨405, .failure "Method not allowed"⟩
  else
    match query with
    | none => ⟨400, .failure "Missing query."⟩
    | some q =>
      match searchDuckDuckGo duckFetch, searchReddit redditFetch, searchWikipedia wikiFetch with
      | .ok duck, .ok reddit, .ok wiki =>
        let news := searchNews newsFetch
        let sources := (wiki ++ news ++ reddit ++ duck).take 10
        ⟨200, .success sources
           ("Fetched " ++ toString sources.length ++ " results for \"" ++ q
             ++ "\" from multiple public sources.")⟩
      | _, _, _ => ⟨500, .failure "Failed to fetch search results."⟩

end Part001

namespace Search1

/-- DuckDuckGo topic fields read by the first document of `src/api/search.js`. -/
structure Topic where
  text : Option String
  firstURL : Option String
deriving DecidableEq, Repr

structure Result1 where
  title : Option String
  url : Option String
deriving DecidableEq, Repr

/-- From `src/api/search.js` (first handler): catch yields `null`;
`RelatedTopics?.slice(0,5).map(...)`; `results?.length ? results : null`. -/
def searchDuckDuckGo (fetched : Except Unit (Option (List Topic))) : Option (List Result1) :=
  match fetched with
  | .error _ => none
  | .ok none => none
  | .ok (some topics) =>
    let results := (topics.take 5).map fun t => ({ title := t.text, url := t.firstURL } : Result1)
    if results.length == 0 then none else some results

structure RSSItem where
  title : String
  link : String
deriving DecidableEq, Repr

/-- Sequential walk over the four feeds: each feed's first 4 items whose
title contains the query (case-insensitively) are kept; a rejection of any
feed is caught around the whole loop, discarding everything. -/
def collectFeeds (query : String) : List (Except Unit (List RSSItem)) → Except Unit (List RSSItem)
  | [] => .ok []
  | f :: fs =>
    match f with
    | .error e => .error e
    | .ok items =>
      match collectFeeds query fs with
      | .error e => .error e
      | .ok rest => .ok ((items.take 4).filter (fun it => containsCI it.title query) ++ rest)

/-- From `src/api/search.js` (first handler): `fetchNewsRSS` returns the
collected matches `slice(0,6)`, or `[]` when any feed failed. -/
def fetchNewsRSS (query : String) (feeds : List (Except Unit (List RSSItem))) : List RSSItem :=
  match collectFeeds query feeds with
  | .ok items => items.take 6
  | .error _ => []

structure RedditRaw where
  title : Option String
  permalink : String
  ups : Option Int
deriving DecidableEq, Repr

structure Post1 where
  title : Option String
  url : String
  upvotes : Option Int
deriving DecidableEq, Repr

/-- From `src/api/search.js` (first handler): `data.data.children` with no
optional chaining — a missing `data.data` throws a TypeError that the catch
turns into `[]`. -/
def fetchReddit (fetched : Except Unit (Option (List RedditRaw))) : List Post1 :=
  match fetched with
  | .error _ => []
  | .ok none => []
  | .ok (some children) =>
    children.map fun p => { title := p.title, url := "https://reddit.com" ++ p.permalink, upvotes := p.ups }

structure WikiSummary where
  title : Option String
  summary : Option String
  url : Option String
deriving DecidableEq, Repr

/-- From `src/api/search.js` (first handler): catch and non-ok status both
yield `null`. -/
def fetchWikipedia (fetched : Except Unit (Bool × WikiData)) : Option WikiSummary :=
  match fetched with
  | .error _ => none
  | .ok (resOk, d) =>
    if resOk then some { title := d.title, summary := d.extract, url := d.pageURL }
    else none

inductive D1Body where
  | success (query timestamp : String) (wikipedia : Option WikiSummary)
      (news : List RSSItem) (web : List Result1) (reddit : List Post1)
  | failure (error : String)
  | preflight
deriving DecidableEq, Repr

structure D1Resp where
  status : Nat
  body : D1Body
deriving DecidableEq, Repr

/-- First handler of `src/api/search.js`.  Every adapter absorbs its own
failures, so `Promise.all` never rejects.  `timestamp` stands for
`new Date().toISOString()`. -/
def handler (method : String) (query : Option String) (timestamp : String)
    (duckFetch : Except Unit (Option (List Topic)))
    (feeds : List (Except Unit (List RSSItem)))
    (redditFetch : Except Unit (Option (List RedditRaw)))
    (wikiFetch : Except Unit (Bool × WikiData)) : D1Resp :=
  if method == "OPTIONS" then ⟨200, .preflight⟩
  else if method != "POST" then ⟨405, .failure "Method not allowed"⟩
  else
    match query with
    | none => ⟨400, .failure "Missing search query"⟩
    | some q =>
      let duck := searchDuckDuckGo duckFetch
      let news := fetchNewsRSS q feeds
      let reddit := fetchReddit redditFetch
      let wiki := fetchWikipedia wikiFetch
      ⟨200, .success q timestamp wiki news (duck.getD []) reddit⟩

end Search1

namespace Social

/-- Item shape passed through from the social adapters (`source`, `author`,
`text`, `link`), as produced by `src/lib/adapters/instagram.js` and
`src/lib/adapters/youtube.js`; the handler never inspects items. -/
structure Item where
  source : String
  author : String
  text : String
  link : String
deriving DecidableEq, Repr

inductive SocBody where
  | items (items : List Item)
  | failure (error : String)
deriving DecidableEq, Repr

structure SocResp where
  status : Nat
  body : SocBody
deriving DecidableEq, Repr

/-- JS `!sources || sources.includes(name)`. -/
def includeSrc (srcs : Option String) (name : String) : Bool :=
  match srcs with
  | none => true
  | some s => containsStr s name

/-- Sequential awaits inside the handler's try: the first adapter rejection
aborts with its error message. -/
def collect (srcs : Option String)
    (xR redditR instaR ytR : Except String (List Item)) : Except String (List Item) := do
  let r1 ← if includeSrc srcs "x" then xR else pure []
  let r2 ← if includeSrc srcs "reddit" then redditR else pure []
  let r3 ← if includeSrc srcs "instagram" then instaR else pure []
  let r4 ← if includeSrc srcs "youtube" then ytR else pure []
  pure (r1 ++ r2 ++ r3 ++ r4)

/-- Handler of `src/api/social-search.js`.  Note: the source contains no
`req.method` test at all — `method` is an input only to make that explicit;
it is never consulted. -/
def handler (_method : String) (q : Option String) (srcs : Option String)
    (xR redditR instaR ytR : Except String (List Item)) : SocResp :=
  match q with
  | none => ⟨400, .failure "Missing query"⟩
  | some _ =>
    match collect srcs xR redditR instaR ytR with
    | .ok results => ⟨200, .items results⟩
    | .error msg => ⟨500, .failure msg⟩

end Social

deriving instance DecidableEq for Except

/-- One role-tagged message of a conversation (`role`, `content`). -/
structure Turn where
  role : String
  content : String
deriving DecidableEq, Repr

/-- Keyword list `swahiliWords` of `detectLanguage` in the second document
of `src/api/search.js`. -/
def swahiliWords2 : List String :=
  ["habari", "sasa", "niko", "kwani", "basi", "ndio", "karibu", "asante"]

/-- Keyword list `shengWords` of `detectLanguage` in the second document of
`src/api/search.js`. -/
def shengWords2 : List String :=
  ["bro", "maze", "manze", "noma", "fiti", "safi", "buda", "msee", "mwana", "poa"]

/-- Total number of keywords from both lists occurring case-insensitively
as substrings of the text (second-document version). -/
def matchCount2 (text : String) : Nat :=
  let lower := text.toList.map Char.toLower
  (swahiliWords2.filter fun w => occursWithin w.toList lower).length
    + (shengWords2.filter fun w => occursWithin w.toList lower).length

/-- From the second document of `src/api/search.js` (`detectLanguage`):
lowercase the text, count keywords from the two lists occurring as
substrings; total 0 → "english", total < 3 → "mixed", else "swahili". -/
def detectLanguage (text : String) : String :=
  let lower := text.toList.map Char.toLower
  let swCount := (swahiliWords2.filter fun w => occursWithin w.toList lower).length
  let shCount := (shengWords2.filter fun w => occursWithin w.toList lower).length
  if swCount + shCount == 0 then "english"
  else if swCount + shCount < 3 then "mixed"
  else "swahili"

/-- Keyword list `swahili` of `detectLanguage` in the third document of
`src/api/search.js`. -/
def swahiliWords3 : List String :=
  ["habari", "sasa", "kwani", "niko", "basi", "ndio", "asante"]

/-- Keyword list `sheng` of `detectLanguage` in the third document of
`src/api/search.js`. -/
def shengWords3 : List String :=
  ["bro", "maze", "fiti", "safi", "buda", "msee", "poa"]

/-- Total keyword matches for the third-document version. -/
def matchCount3 (text : String) : Nat :=
  let lower := text.toList.map Char.toLower
  (swahiliWords3.filter fun w => occursWithin w.toList lower).length
    + (shengWords3.filter fun w => occursWithin w.toList lower).length

/-- From the third document of `src/api/search.js` (`detectLanguage`):
total > 2 → "swahili", total > 0 → "mixed", else "english". -/
def detectLanguage3 (text : String) : String :=
  let lower := text.toList.map Char.toLower
  let sw := (swahiliWords3.filter fun w => occursWithin w.toList lower).length
  let sh := (shengWords3.filter fun w => occursWithin w.toList lower).length
  if sw + sh > 2 then "swahili"
  else if sw + sh > 0 then "mixed"
  else "english"

/-- Trigger vocabulary of `needsSearch` in the third document of
`src/api/search.js`. -/
def searchTriggers : List String :=
  ["search", "find", "look up", "check online", "any news", "trending",
   "latest updates", "on reddit", "on twitter", "current events"]

/-- From the third document of `src/api/search.js`: any trigger occurring in
the lowercased prompt. -/
def needsSearch (prompt : String) : Bool :=
  searchTriggers.any fun t => occursWithin t.toList (prompt.toList.map Char.toLower)

-- Case-insensitive match of a (lowercase) pattern against the start of a
-- character list.
def ciPrefixAt : List Char → List Char → Bool
  | [], _ => true
  | _ :: _, [] => false
  | p :: ps, c :: cs => p == c.toLower && ciPrefixAt ps cs

/-- Model of the JS regex replace `/as an ai|language model/gi` with `""`:
scan left to right; at each position remove the first alternative that
matches case-insensitively and continue after it.  The recursion is driven
by a fuel argument (each step consumes at least one character, so fuel
equal to the input length suffices and the `0` case is unreachable). -/
def stripPhrases : Nat → List Char → List Char
  | _, [] => []
  | 0, l => l
  | fuel + 1, c :: cs =>
    if ciPrefixAt "as an ai".toList (c :: cs) then stripPhrases fuel ((c :: cs).drop 8)
    else if ciPrefixAt "language model".toList (c :: cs) then stripPhrases fuel ((c :: cs).drop 14)
    else c :: stripPhrases fuel cs

/-- From the second document of `src/api/search.js`:
`fullResponse.replace(/as an ai|language model/gi, "")`. -/
def cleanResponse (s : String) : String := String.mk (stripPhrases s.toList.length s.toList)

/-- Role label used when rendering one conversation turn into the prompt,
identical in both chat documents: `msg.role === "user" ? "User" :
"Assistant"`. -/
def turnLine (m : Turn) : String :=
  (if m.role == "user" then "User" else "Assistant") ++ ": " ++ m.content

/-- Outcome of the Gemini HTTP call once it resolved: HTTP status, the body
text read on failure, and the extracted candidate text
(`candidates?.[0]?.content?.parts?.[0]?.text`, `none` when missing). -/
structure GeminiResp where
  status : Nat
  errText : String
  candText : Option String
deriving DecidableEq, Repr

/-- JS `Response.ok`: status in the range 200–299. -/
def geminiOk (g : GeminiResp) : Bool := 200 ≤ g.status && g.status < 300

namespace Gen2

/-- Per-user record of the second document of `src/api/search.js`. -/
structure Memory where
  userId : String
  lastProject : Option String
  lastTask : Option String
  conversation : List Turn
deriving DecidableEq, Repr

/-- The fixed persona/instruction string of the second document's default
record, reproduced verbatim (template literal, lines 158–185 of
`src/api/search.js`). -/
def persona : String := "\nYou are **Max CodeGen AI** — an expressive, brilliant assistant 🤖💫 built by Max, a 21-year-old full-stack developer from Kenya 🇰🇪.\n\n🧭 CONTEXT AWARENESS:\n• The current year is **2025**. You understand modern events, trends, and technologies up to this year.\n• Always reason as if you exist in 2025 — avoid outdated info.\n\n⚡ PERSONALITY:\n• You talk like a warm, confident Nairobi techie 😎.\n• Use English by default, but if the user uses Swahili or Sheng, blend naturally.\n• Never say “I’m an AI” — you are **Max CodeGen AI**, Max’s digital creation.\n• Only mention your name or Max if the user directly asks (“who made you?”, “what’s your name?”).\n• Be expressive, but not exaggerated.\n\n💻 TECH STYLE:\n• Format code using markdown (```js``` etc.).\n• Explain ideas clearly and engagingly.\n• Encourage users — you\x27re like a supportive coding buddy.\n\n🧠 LANGUAGE BEHAVIOR:\n• English → English.\n• Swahili/Sheng → reply the same way.\n• Mixed → blend naturally.\n\n🌍 SEARCH CAPABILITY (2025):\n• You can reference real-time data through external APIs (like social media, web, or news APIs) using a separate endpoint (e.g. /api/search.js).\n• Use that when the user asks to “check online”, “see trending”, “find on Twitter”, etc.\n        "

def defaultMemory (userId : String) : Memory :=
  { userId := userId, lastProject := none, lastTask := none,
    conversation := [{ role := "system", content := persona }] }

/-- From the second document of `src/api/search.js`: read the per-user file;
a missing file or a read/parse failure (caught) falls back to the default
record.  `stored` is the file's state for this user: `none` = no file,
`some (Except.error ())` = unreadable/corrupt, `some (Except.ok m)` =
parses to `m`. -/
def loadMemory (userId : String) (stored : Option (Except Unit Memory)) : Memory :=
  match stored with
  | some (.ok m) => m
  | _ => defaultMemory userId

/-- From the second document of `src/api/search.js`: `saveMemory` wraps
`writeFileSync` in try/catch — a write failure is logged and leaves the
stored file as it was. -/
def saveMemory (stored : Option (Except Unit Memory)) (m : Memory) (writeFails : Bool) :
    Option (Except Unit Memory) :=
  if writeFails then stored else some (.ok m)

def languageInstruction (lang : String) : String :=
  if lang == "swahili" then "Respond fully in Swahili or Sheng depending on tone."
  else if lang == "mixed" then "Respond bilingually — mostly English with Swahili/Sheng flavor."
  else "Respond in English, friendly Kenyan developer tone."

/-- Prompt template of the second document: newline, role-labelled turns
joined with newlines, blank line, "System instruction: " and the tone
instruction, final newline. -/
def promptText (conversation : List Turn) (instr : String) : String :=
  "\n" ++ String.intercalate "\n" (conversation.map turnLine)
    ++ "\n\nSystem instruction: " ++ instr ++ "\n"

inductive GBody where
  | reply (text : String)
  | failure (error : String)
  | preflight
deriving DecidableEq, Repr

/-- Observable outcome of one request: HTTP response, the stored file's
state after the request, and the prompt sent to the model (if the call was
made). -/
structure Outcome where
  status : Nat
  body : GBody
  store : Option (Except Unit Memory)
  sent : Option String
deriving DecidableEq, Repr

/-- Second (chat) handler of `src/api/search.js`.  `gem` is the Gemini
fetch outcome (`Except.error ()` = the fetch itself threw, landing in the
catch-all).  On a non-ok model response the handler echoes the model's own
HTTP status and error text. -/
def handler (method prompt : String) (project : Option String) (userId : String)
    (stored : Option (Except Unit Memory))
    (gem : Except Unit GeminiResp) (writeFails : Bool) : Outcome :=
  if method == "OPTIONS" then ⟨200, .preflight, stored, none⟩
  else if method != "POST" then ⟨405, .failure "Method not allowed", stored, none⟩
  else if prompt == "" || userId == "" then
    ⟨400, .failure "Missing prompt or userId.", stored, none⟩
  else
    let memory0 := loadMemory userId stored
    let memory1 : Memory := { memory0 with
      lastProject := project.orElse fun _ => memory0.lastProject
      lastTask := some prompt
      conversation := memory0.conversation ++ [{ role := "user", content := prompt }] }
    let pText := promptText memory1.conversation (languageInstruction (detectLanguage prompt))
    match gem with
    | .error _ => ⟨500, .failure "Server error.", stored, some pText⟩
    | .ok g =>
      if !geminiOk g then ⟨g.status, .failure g.errText, stored, some pText⟩
      else
        let fullResponse := g.candText.getD "⚠️ No response received."
        let cleanText := cleanResponse fullResponse
        let memory2 : Memory := { memory1 with
          conversation := memory1.conversation ++ [{ role := "assistant", content := cleanText }] }
        ⟨200, .reply cleanText, saveMemory stored memory2 writeFails, some pText⟩

end Gen2

namespace Gen3

/-- Per-user record of the third document of `src/api/search.js`. -/
structure Memory where
  userId : String
  conversation : List Turn
deriving DecidableEq, Repr

/-- The fixed persona/instruction string of the third document's default
record, reproduced verbatim (template literal, lines 321–332 of
`src/api/search.js`). -/
def persona : String := "\nYou are Max CodeGen AI — an expressive, brilliant assistant 🤖💫 built by Max, a 21-year-old full-stack developer from Kenya 🇰🇪.\n\n🧭 CONTEXT:\n• The year is 2025. You understand current events and modern tech.\n• You can access a /api/search endpoint for real-time data.\n\n⚡ PERSONALITY:\n• Talk like a friendly Kenyan dev — relaxed but confident.\n• Blend English, Swahili, or Sheng naturally if user uses them.\n• Never say “as an AI”; you are Max CodeGen AI.\n"

def defaultMemory (userId : String) : Memory :=
  { userId := userId, conversation := [{ role := "system", content := persona }] }

/-- From the third document of `src/api/search.js`: same load-or-default
logic as the second document (read failures are caught). -/
def loadMemory (userId : String) (stored : Option (Except Unit Memory)) : Memory :=
  match stored with
  | some (.ok m) => m
  | _ => defaultMemory userId

/-- From the third document of `src/api/search.js`: `saveMemory` calls
`writeFileSync` with no try/catch, so a write failure throws into the
handler's catch-all. -/
def saveMemory (_stored : Option (Except Unit Memory)) (m : Memory) (writeFails : Bool) :
    Except Unit (Option (Except Unit Memory)) :=
  if writeFails then .error () else .ok (some (.ok m))

def tone (lang : String) : String :=
  if lang == "swahili" then "Respond fully in Swahili/Sheng."
  else if lang == "mixed" then "Respond bilingually — mostly English with Swahili/Sheng."
  else "Respond in English, friendly Kenyan dev tone."

/-- Result card copied from the search endpoint's JSON
(`title`, `url`, `snippet`, `image`, `source`). -/
structure Card where
  title : String
  url : String
  snippet : Option String
  image : Option String
  source : Option String
deriving DecidableEq, Repr

/-- Parsed JSON of a successful `getSearchData` call. -/
structure SearchData where
  reply : Option String
  sources : Option (List Card)
deriving DecidableEq, Repr

/-- One line of the real-time-sources block:
`` `${i + 1}. [${a.title}](${a.url}) — ${a.snippet || ""}` ``. -/
def articleLine (i : Nat) (a : Card) : String :=
  toString (i + 1) ++ ". [" ++ a.title ++ "](" ++ a.url ++ ") — " ++ a.snippet.getD ""

/-- The search-context block appended to the prompt when live results were
obtained. -/
def searchContextText (reply : Option String) (cards : List Card) : String :=
  let summarized := reply.getD "Here’s what I found:"
  let topArticles := String.intercalate "\n" (cards.enum.map fun p => articleLine p.1 p.2)
  "\n🧠 Real-time sources:\n" ++ topArticles ++ "\n\nGemini summary:\n" ++ summarized

/-- The `searchContext` string and `newsCards` list computed by the third
handler: live results are used only when `needsSearch prompt` holds,
`getSearchData` succeeded and `data.sources?.length > 0`. -/
def searchContextFor (prompt : String) (searchData : Option SearchData) : String × List Card :=
  if needsSearch prompt then
    match searchData with
    | some data =>
      match data.sources with
      | some cards =>
        if 0 < cards.length then (searchContextText data.reply cards, cards)
        else ("", [])
      | none => ("", [])
    | none => ("", [])
  else ("", [])

/-- Prompt template of the third document: newline, role-labelled turns
joined with newlines, newline, the (possibly empty) search context, blank
line, "System: " and the tone, final newline. -/
def fullPromptText (conversation : List Turn) (searchContext : String) (t : String) : String :=
  "\n" ++ String.intercalate "\n" (conversation.map turnLine) ++ "\n" ++ searchContext
    ++ "\n\nSystem: " ++ t ++ "\n"

inductive G3Body where
  | reply (text : String) (news : List Card)
  | failure (error : String)
  | preflight
deriving DecidableEq, Repr

structure Outcome where
  status : Nat
  body : G3Body
  store : Option (Except Unit Memory)
  sent : Option String
deriving DecidableEq, Repr

/-- Third (generate) handler of `src/api/search.js`.  `searchData` is what
`getSearchData prompt` would yield if invoked (`none` = its fetch failed or
returned non-ok, both caught inside `getSearchData`); it is consulted only
when `needsSearch prompt` holds.  A non-ok model response yields 500
"Gemini API failed"; a save failure throws into the catch-all (500 "Server
error.") with the stored file unchanged. -/
def handler (method prompt userId : String)
    (stored : Option (Except Unit Memory))
    (searchData : Option SearchData)
    (gem : Except Unit GeminiResp) (writeFails : Bool) : Outcome :=
  if method == "OPTIONS" then ⟨200, .preflight, stored, none⟩
  else if method != "POST" then ⟨405, .failure "Method not allowed", stored, none⟩
  else if prompt == "" || userId == "" then
    ⟨400, .failure "Missing prompt or userId.", stored, none⟩
  else
    let memory0 := loadMemory userId stored
    let memory1 : Memory := { memory0 with
      conversation := memory0.conversation ++ [{ role := "user", content := prompt }] }
    let t := tone (detectLanguage3 prompt)
    let ctxCards := searchContextFor prompt searchData
    let fullPrompt := fullPromptText memory1.conversation ctxCards.1 t
    match gem with
    | .error _ => ⟨500, .failure "Server error.", stored, some fullPrompt⟩
    | .ok g =>
      if !geminiOk g then ⟨500, .failure "Gemini API failed", stored, some fullPrompt⟩
      else
        let replyText := g.candText.getD "⚠️ No reply received."
        let memory2 : Memory := { memory1 with
          conversation := memory1.conversation ++ [{ role := "assistant", content := replyText }] }
        match saveMemory stored memory2 writeFails with
        | .error _ => ⟨500, .failure "Server error.", stored, some fullPrompt⟩
        | .ok store2 => ⟨200, .reply replyText ctxCards.2, store2, some fullPrompt⟩

end Gen3

/-- Filtering on a present `image` and then extracting it is the same as
extracting directly (used to relate the handler's image pipeline to the
truncated source list). -/
theorem filterMap_image_of_filter (l : List SearchResult) :
    ((l.filter fun s => s.image.isSome).filterMap fun s => s.image)
      = l.filterMap fun s => s.image := by
  induction l with
  | nil => rfl
  | cons a l ih =>
    cases h : a.image with
    | none => simp [List.filter_cons, List.filterMap_cons, h, ih]
    | some u => simp [List.filter_cons, List.filterMap_cons, h, ih]

/-- The second-document classifier phrased through its total match count. -/
theorem detectLanguage_thresholds (t : String) :
    detectLanguage t
      = if matchCount2 t = 0 then "english"
        else if matchCount2 t < 3 then "mixed" else "swahili" := by
  simp only [detectLanguage, matchCount2, beq_iff_eq]

/-- The third-document classifier phrased through its total match count. -/
theorem detectLanguage3_thresholds (t : String) :
    detectLanguage3 t
      = if matchCount3 t > 2 then "swahili"
        else if matchCount3 t > 0 then "mixed" else "english" := by
  simp only [detectLanguage3, matchCount3]

/-- C1: for every query, each unnamed search handler's aggregated result
list equals the concatenation of the adapters' outputs in the fixed order
Wikipedia, News, Reddit, DuckDuckGo (within-provider order preserved, no
re-ranking), truncated to the first 10 items, so its length is at most 10.
The hypotheses state that the adapters that can reject resolved with the
given output lists. -/
theorem c1_search_aggregation_order_and_bound
    (q : String) (gk : Bool) (gs : Except Unit String)
    (dF : Except Unit DuckData) (rF : Except Unit (Option (List RedditPost)))
    (wF : Except Unit (Bool × WikiData)) (nF : Except Unit (Bool × Option (List NewsArticle)))
    (dF' : Except Unit DuckData) (rF' : Except Unit (Option (List RedditPost)))
    (wF' : Except Unit (Bool × WikiData)) (nF' : Except Unit (Bool × Option (List NewsArticle)))
    (duck duck' reddit' wiki' : List SearchResult)
    (hd : Part000.searchDuckDuckGo dF = .ok duck)
    (hd' : Part001.searchDuckDuckGo dF' = .ok duck')
    (hr' : Part001.searchReddit rF' = .ok reddit')
    (hw' : Part001.searchWikipedia wF' = .ok wiki') :
    (∃ reply images summary,
      Part000.handler "POST" (some q) dF rF wF nF gk gs
        = ⟨200, .success reply
            ((Part000.searchWikipedia wF ++ Part000.searchNews nF
              ++ Part000.searchReddit rF ++ duck).take 10) images summary⟩)
    ∧ ((Part000.searchWikipedia wF ++ Part000.searchNews nF
          ++ Part000.searchReddit rF ++ duck).take 10).length ≤ 10
    ∧ (∃ summary,
      Part001.handler "POST" (some q) dF' rF' wF' nF'
        = ⟨200, .success ((wiki' ++ Part001.searchNews nF' ++ reddit' ++ duck').take 10) summary⟩)
    ∧ ((wiki' ++ Part001.searchNews nF' ++ reddit' ++ duck').take 10).length ≤ 10 := by
  refine ⟨?_, ?_, ?_, ?_⟩
  · unfold Part000.handler
    rw [hd]
    exact ⟨_, _, _, rfl⟩
  · simp [List.length_take]
  · unfold Part001.handler
    rw [hd', hr', hw']
    exact ⟨_, rfl⟩
  · simp [List.length_take]

/-- Witness for C1 at concrete inputs: an empty DuckDuckGo payload resolves
to the empty output list, and the truncated aggregation is bounded by 10. -/
theorem c1_search_aggregation_order_and_bound_witness :
    Part000.searchDuckDuckGo (.ok ⟨none, none, "", none, none⟩) = .ok []
    ∧ ((Part000.searchWikipedia (.error ()) ++ Part000.searchNews (.error ())
        ++ Part000.searchReddit (.error ()) ++ ([] : List SearchResult)).take 10).length ≤ 10 :=
  ⟨rfl, (c1_search_aggregation_order_and_bound "ai" false (.error ())
      (.ok ⟨none, none, "", none, none⟩) (.error ()) (.error ()) (.error ())
      (.ok ⟨none, none, "", none, none⟩) (.ok none) (.ok (false, ⟨none, none, none, none⟩))
      (.error ()) [] [] [] [] rfl rfl rfl rfl).2.1⟩

/-- C2 counterexample: with every source adapter failing — DuckDuckGo's
fetch throwing (it has no internal catch) and the three self-catching
adapters throwing too — the `part_000` search handler answers 500 with an
error body, not 200 with empty sources: adapter failure can abort the
aggregation. -/
theorem c2_counterexample_all_adapters_throw :
    Part000.handler "POST" (some "elections") (.error ()) (.error ()) (.error ()) (.error ())
        false (.error ())
      = ⟨500, .failure "Failed to fetch or summarize results."⟩
    ∧ (Part000.handler "POST" (some "elections") (.error ()) (.error ()) (.error ()) (.error ())
        false (.error ())).status ≠ 200 :=
  ⟨rfl, by decide⟩

/-- C2 amended: if every adapter fails without rejecting the parallel
fan-out (DuckDuckGo resolves with an empty result list and the
self-catching Reddit/Wikipedia/News adapters throw), the endpoint still
answers 200 with empty sources, empty images and the fallback reply; but a
DuckDuckGo rejection propagates through `Promise.all` and produces a 500
error response. -/
theorem c2_amended_degrade_unless_duck_throws
    (q : String) (gk : Bool) (dd : DuckData)
    (hempty : duckResults dd = []) :
    Part000.handler "POST" (some q) (.ok dd) (.error ()) (.error ()) (.error ()) gk (.error ())
      = ⟨200, .success Part000.fallbackReply [] []
          ("Fetched 0 results for \"" ++ q ++ "\".")⟩
    ∧ ∀ (rF : Except Unit (Option (List RedditPost))) (wF : Except Unit (Bool × WikiData))
        (nF : Except Unit (Bool × Option (List NewsArticle))) (gs : Except Unit String),
        Part000.handler "POST" (some q) (.error ()) rF wF nF gk gs
          = ⟨500, .failure "Failed to fetch or summarize results."⟩ := by
  constructor
  · have h : Part000.searchDuckDuckGo (.ok dd) = .ok [] := by
      show Except.ok (duckResults dd) = Except.ok []
      rw [hempty]
    unfold Part000.handler
    rw [h]
    cases gk <;> rfl
  · intro rF wF nF gs
    rfl

/-- Witness for the amended C2 at concrete inputs. -/
theorem c2_amended_degrade_unless_duck_throws_witness :
    duckResults ⟨none, none, "", none, none⟩ = []
    ∧ Part000.handler "POST" (some "ai") (.ok ⟨none, none, "", none, none⟩)
        (.error ()) (.error ()) (.error ()) false (.error ())
      = ⟨200, .success Part000.fallbackReply [] [] ("Fetched 0 results for \"" ++ "ai" ++ "\".")⟩ :=
  ⟨rfl, (c2_amended_degrade_unless_duck_throws "ai" false ⟨none, none, "", none, none⟩ rfl).1⟩

/-- C3: a record newly created by load (no stored file, or an
unreadable/corrupt one) starts with the fixed system persona turn, in both
chat documents; and the handlers only append turns — any record they write
back is the loaded conversation extended with exactly the user turn and one
assistant turn (they never reorder or delete). -/
theorem c3_system_head_and_append_only :
    (∀ (u : String) (stored : Option (Except Unit Gen2.Memory)),
      (stored = none ∨ stored = some (.error ())) →
      (Gen2.loadMemory u stored).conversation.head? = some ⟨"system", Gen2.persona⟩)
    ∧ (∀ (u : String) (stored : Option (Except Unit Gen3.Memory)),
      (stored = none ∨ stored = some (.error ())) →
      (Gen3.loadMemory u stored).conversation.head? = some ⟨"system", Gen3.persona⟩)
    ∧ (∀ method prompt project userId stored gem wf,
      (Gen2.handler method prompt project userId stored gem wf).store = stored
      ∨ ∃ reply lastProj,
          (Gen2.handler method prompt project userId stored gem wf).store
            = some (.ok ⟨(Gen2.loadMemory userId stored).userId, lastProj, some prompt,
                (Gen2.loadMemory userId stored).conversation
                  ++ [⟨"user", prompt⟩, ⟨"assistant", reply⟩]⟩))
    ∧ (∀ method prompt userId stored sd gem wf,
      (Gen3.handler method prompt userId stored sd gem wf).store = stored
      ∨ ∃ reply,
          (Gen3.handler method prompt userId stored sd gem wf).store
            = some (.ok ⟨(Gen3.loadMemory userId stored).userId,
                (Gen3.loadMemory userId stored).conversation
                  ++ [⟨"user", prompt⟩, ⟨"assistant", reply⟩]⟩)) := by
  refine ⟨?_, ?_, ?_, ?_⟩
  · intro u stored h
    rcases h with h | h <;> subst h <;> rfl
  · intro u stored h
    rcases h with h | h <;> subst h <;> rfl
  · intro method prompt project userId stored gem wf
    unfold Gen2.handler
    split
    · left; rfl
    split
    · left; rfl
    split
    · left; rfl
    cases gem with
    | error e => left; rfl
    | ok g =>
      by_cases hok : geminiOk g = true
      · by_cases hwf : wf = true
        · left
          simp [Gen2.saveMemory, hok, hwf]
        · right
          refine ⟨cleanResponse (g.candText.getD "⚠️ No response received."),
            project.orElse fun _ => (Gen2.loadMemory userId stored).lastProject, ?_⟩
          simp [Gen2.saveMemory, hok, hwf, List.append_assoc]
      · left
        simp [hok]
  · intro method prompt userId stored sd gem wf
    unfold Gen3.handler
    split
    · left; rfl
    split
    · left; rfl
    split
    · left; rfl
    cases gem with
    | error e => left; rfl
    | ok g =>
      by_cases hok : geminiOk g = true
      · by_cases hwf : wf = true
        · left
          simp [Gen3.saveMemory, hok, hwf]
        · right
          refine ⟨g.candText.getD "⚠️ No reply received.", ?_⟩
          simp [Gen3.saveMemory, hok, hwf, List.append_assoc]
      · left
        simp [hok]

/-- Witness for C3: loading a user with no stored file yields the system
persona turn first. -/
theorem c3_system_head_and_append_only_witness :
    (Gen2.loadMemory "u1" none).conversation.head? = some ⟨"system", Gen2.persona⟩ :=
  c3_system_head_and_append_only.1 "u1" none (Or.inl rfl)

/-- C4: both versions of the language-style classifier count
case-insensitive substring matches of the input against two fixed keyword
lists and return english on 0 total matches, mixed on 1-2, swahili on 3 or
more; and the three example inputs classify as the spec states. -/
theorem c4_classifier_thresholds_and_examples :
    (∀ t : String,
      (matchCount2 t = 0 → detectLanguage t = "english")
      ∧ ((matchCount2 t = 1 ∨ matchCount2 t = 2) → detectLanguage t = "mixed")
      ∧ (3 ≤ matchCount2 t → detectLanguage t = "swahili"))
    ∧ (∀ t : String,
      (matchCount3 t = 0 → detectLanguage3 t = "english")
      ∧ ((matchCount3 t = 1 ∨ matchCount3 t = 2) → detectLanguage3 t = "mixed")
      ∧ (3 ≤ matchCount3 t → detectLanguage3 t = "swahili"))
    ∧ detectLanguage "hello there" = "english"
    ∧ detectLanguage "sasa bro, poa?" = "swahili"
    ∧ detectLanguage "sasa, how are you" = "mixed"
    ∧ detectLanguage3 "hello there" = "english"
    ∧ detectLanguage3 "sasa bro, poa?" = "swahili"
    ∧ detectLanguage3 "sasa, how are you" = "mixed" := by
  refine ⟨fun t => ⟨?_, ?_, ?_⟩, fun t => ⟨?_, ?_, ?_⟩,
    by decide, by decide, by decide, by decide, by decide, by decide⟩
  · intro h
    rw [detectLanguage_thresholds, if_pos h]
  · intro h
    rw [detectLanguage_thresholds, if_neg (by omega), if_pos (by omega)]
  · intro h
    rw [detectLanguage_thresholds, if_neg (by omega), if_neg (by omega)]
  · intro h
    rw [detectLanguage3_thresholds, if_neg (by omega), if_neg (by omega)]
  · intro h
    rw [detectLanguage3_thresholds, if_neg (by omega), if_pos (by omega)]
  · intro h
    rw [detectLanguage3_thresholds, if_pos (by omega)]

/-- Witness for C4: "sasa bro, poa?" has three keyword matches and
classifies as swahili. -/
theorem c4_classifier_thresholds_and_examples_witness :
    3 ≤ matchCount2 "sasa bro, poa?" ∧ detectLanguage "sasa bro, poa?" = "swahili" :=
  ⟨by decide, (c4_classifier_thresholds_and_examples.1 "sasa bro, poa?").2.2 (by decide)⟩

/-- C5: whenever the `part_000` search handler answers with a success body,
its image list has length at most 6 and is the ordered extraction of the
image URLs of the items of the truncated (at most 10-element) source list
that have a non-null image; discarded items contribute nothing. -/
theorem c5_images_bounded_and_from_truncated
    (q : String) (gk : Bool) (gs : Except Unit String)
    (dF : Except Unit DuckData) (rF : Except Unit (Option (List RedditPost)))
    (wF : Except Unit (Bool × WikiData)) (nF : Except Unit (Bool × Option (List NewsArticle)))
    (st : Nat) (reply summary : String) (sources : List SearchResult) (images : List String)
    (h : Part000.handler "POST" (some q) dF rF wF nF gk gs
      = ⟨st, .success reply sources images summary⟩) :
    images.length ≤ 6
    ∧ images = (sources.filterMap fun s => s.image).take 6
    ∧ ∀ u ∈ images, ∃ r ∈ sources, r.image = some u := by
  cases dF with
  | error e =>
    injection h with hst hbody
    injection hbody
  | ok dd =>
    injection h with hst hbody
    injection hbody with hr hs hi hsum
    subst hs
    subst hi
    rw [filterMap_image_of_filter]
    refine ⟨by simp [List.length_take], rfl, ?_⟩
    intro u hu
    have hm := List.mem_of_mem_take hu
    rcases List.mem_filterMap.mp hm with ⟨r, hrmem, hru⟩
    exact ⟨r, hrmem, hru⟩

/-- Witness for C5 at a concrete request whose single result carries an
image. -/
theorem c5_images_bounded_and_from_truncated_witness :
    Part000.handler "POST" (some "ai")
        (.ok ⟨some [⟨some "A - B", some "https://a.example", some "/i.png"⟩], none, "", none, none⟩)
        (.error ()) (.error ()) (.error ()) false (.error ())
      = ⟨200, .success Part000.fallbackReply
          [⟨some "A", some "A - B", some "https://a.example",
            some "https://duckduckgo.com/i.png", "DuckDuckGo"⟩]
          ["https://duckduckgo.com/i.png"] "Fetched 1 results for \"ai\"."⟩
    ∧ (["https://duckduckgo.com/i.png"] : List String).length ≤ 6 :=
  ⟨rfl, (c5_images_bounded_and_from_truncated "ai" false (.error ())
      (.ok ⟨some [⟨some "A - B", some "https://a.example", some "/i.png"⟩], none, "", none, none⟩)
      (.error ()) (.error ()) (.error ()) 200 Part000.fallbackReply "Fetched 1 results for \"ai\"."
      [⟨some "A", some "A - B", some "https://a.example",
        some "https://duckduckgo.com/i.png", "DuckDuckGo"⟩]
      ["https://duckduckgo.com/i.png"] rfl).1⟩

/-- C6 counterexample: in the second chat document a failing model call is
answered with the model API's own HTTP status (here 403) and its error
text, not with status 500. -/
theorem c6_counterexample_status_passthrough :
    (Gen2.handler "POST" "hi" none "u1" none (.ok ⟨403, "quota exceeded", none⟩) false).status = 403
    ∧ (Gen2.handler "POST" "hi" none "u1" none (.ok ⟨403, "quota exceeded", none⟩) false).body
        = .failure "quota exceeded"
    ∧ (Gen2.handler "POST" "hi" none "u1" none (.ok ⟨403, "quota exceeded", none⟩) false).status ≠ 500 :=
  ⟨rfl, rfl, by decide⟩

/-- C6 amended: on a non-success model response, the third (generate)
handler answers 500 with a JSON error string, while the second handler
echoes the model API's own status code with the model's error text as the
error string — both respond with an error body. -/
theorem c6_amended_model_failure_responses
    (prompt userId : String) (project : Option String)
    (stored2 : Option (Except Unit Gen2.Memory)) (stored3 : Option (Except Unit Gen3.Memory))
    (sd : Option Gen3.SearchData) (g : GeminiResp) (wf : Bool)
    (hp : prompt ≠ "") (hu : userId ≠ "") (hg : geminiOk g = false) :
    (Gen3.handler "POST" prompt userId stored3 sd (.ok g) wf).status = 500
    ∧ (Gen3.handler "POST" prompt userId stored3 sd (.ok g) wf).body
        = .failure "Gemini API failed"
    ∧ (Gen2.handler "POST" prompt project userId stored2 (.ok g) wf).status = g.status
    ∧ (Gen2.handler "POST" prompt project userId stored2 (.ok g) wf).body
        = .failure g.errText := by
  have hcond : (prompt == "" || userId == "") = false := by
    simp [hp, hu]
  refine ⟨?_, ?_, ?_, ?_⟩ <;> simp [Gen3.handler, Gen2.handler, hcond, hg]

/-- Witness for the amended C6 at a concrete 403 model failure. -/
theorem c6_amended_model_failure_responses_witness :
    geminiOk ⟨403, "quota exceeded", none⟩ = false
    ∧ (Gen3.handler "POST" "hi" "u1" none none (.ok ⟨403, "quota exceeded", none⟩) false).status = 500 :=
  ⟨by decide, (c6_amended_model_failure_responses "hi" "u1" none none none none
      ⟨403, "quota exceeded", none⟩ false (by decide) (by decide) (by decide)).1⟩

/-- C7 counterexample: in the third chat document `saveMemory` has no
try/catch, so a failing write makes the request fail with 500 "Server
error." instead of succeeding with the model's reply. -/
theorem c7_counterexample_save_failure_500 :
    (Gen3.handler "POST" "hi" "u1" (some (.ok ⟨"u1", [⟨"system", "s"⟩]⟩)) none
        (.ok ⟨200, "", some "yo"⟩) true).status = 500
    ∧ (Gen3.handler "POST" "hi" "u1" (some (.ok ⟨"u1", [⟨"system", "s"⟩]⟩)) none
        (.ok ⟨200, "", some "yo"⟩) true).body = .failure "Server error."
    ∧ (Gen3.handler "POST" "hi" "u1" (some (.ok ⟨"u1", [⟨"system", "s"⟩]⟩)) none
        (.ok ⟨200, "", some "yo"⟩) true).status ≠ 200 :=
  ⟨rfl, rfl, by decide⟩

/-- C7 amended: a write failure is swallowed in the second chat document —
the response still succeeds with the model's reply and the store is left as
it was — but in the third (generate) document it propagates to the
catch-all, failing the request with 500 (the store again unchanged). -/
theorem c7_amended_save_failure_behaviour
    (prompt userId : String) (project : Option String)
    (stored2 : Option (Except Unit Gen2.Memory)) (stored3 : Option (Except Unit Gen3.Memory))
    (sd : Option Gen3.SearchData) (g : GeminiResp)
    (hp : prompt ≠ "") (hu : userId ≠ "") (hg : geminiOk g = true) :
    ((Gen2.handler "POST" prompt project userId stored2 (.ok g) true).status = 200
      ∧ (Gen2.handler "POST" prompt project userId stored2 (.ok g) true).body
          = .reply (cleanResponse (g.candText.getD "⚠️ No response received."))
      ∧ (Gen2.handler "POST" prompt project userId stored2 (.ok g) true).store = stored2)
    ∧ ((Gen3.handler "POST" prompt userId stored3 sd (.ok g) true).status = 500
      ∧ (Gen3.handler "POST" prompt userId stored3 sd (.ok g) true).body
          = .failure "Server error."
      ∧ (Gen3.handler "POST" prompt userId stored3 sd (.ok g) true).store = stored3) := by
  have hcond : (prompt == "" || userId == "") = false := by
    simp [hp, hu]
  refine ⟨⟨?_, ?_, ?_⟩, ⟨?_, ?_, ?_⟩⟩ <;>
    simp [Gen2.handler, Gen3.handler, Gen2.saveMemory, Gen3.saveMemory, hcond, hg]

/-- Witness for the amended C7: the second document still answers 200 when
the write fails. -/
theorem c7_amended_save_failure_behaviour_witness :
    geminiOk ⟨200, "", some "sawa"⟩ = true
    ∧ (Gen2.handler "POST" "hi" none "u1" none (.ok ⟨200, "", some "sawa"⟩) true).status = 200 :=
  ⟨by decide, (c7_amended_save_failure_behaviour "hi" "u1" none none none none
      ⟨200, "", some "sawa"⟩ (by decide) (by decide) (by decide)).1.1⟩

/-- C8: for every valid chat request, the prompt sent to the model is the
rendering of all turns of the loaded conversation plus the appended user
turn, each prefixed with the label derived from its role, followed (in the
generate document) by the search-context block and the tone instruction
selected by the language-style classifier. -/
theorem c8_prompt_assembly
    (prompt userId : String) (project : Option String)
    (stored2 : Option (Except Unit Gen2.Memory)) (stored3 : Option (Except Unit Gen3.Memory))
    (sd : Option Gen3.SearchData) (gem : Except Unit GeminiResp) (wf : Bool)
    (hp : prompt ≠ "") (hu : userId ≠ "") :
    (Gen3.handler "POST" prompt userId stored3 sd gem wf).sent
      = some (Gen3.fullPromptText
          ((Gen3.loadMemory userId stored3).conversation ++ [⟨"user", prompt⟩])
          (Gen3.searchContextFor prompt sd).1
          (Gen3.tone (detectLanguage3 prompt)))
    ∧ (Gen2.handler "POST" prompt project userId stored2 gem wf).sent
      = some (Gen2.promptText
          ((Gen2.loadMemory userId stored2).conversation ++ [⟨"user", prompt⟩])
          (Gen2.languageInstruction (detectLanguage prompt))) := by
  have hcond : (prompt == "" || userId == "") = false := by
    simp [hp, hu]
  constructor
  · cases gem with
    | error e => simp [Gen3.handler, hcond]
    | ok g =>
      by_cases hok : geminiOk g = true
      · by_cases hwf : wf = true <;>
          simp [Gen3.handler, Gen3.saveMemory, hcond, hok, hwf]
      · simp [Gen3.handler, hcond, hok]
  · cases gem with
    | error e => simp [Gen2.handler, hcond]
    | ok g =>
      by_cases hok : geminiOk g = true
      · simp [Gen2.handler, Gen2.saveMemory, hcond, hok]
      · simp [Gen2.handler, hcond, hok]

/-- Witness for C8 at a concrete request. -/
theorem c8_prompt_assembly_witness :
    (Gen3.handler "POST" "habari" "u1" none none (.error ()) false).sent
      = some (Gen3.fullPromptText
          ((Gen3.loadMemory "u1" none).conversation ++ [⟨"user", "habari"⟩])
          (Gen3.searchContextFor "habari" none).1
          (Gen3.tone (detectLanguage3 "habari"))) :=
  (c8_prompt_assembly "habari" "u1" none none none none (.error ()) false
    (by decide) (by decide)).1

/-- C9 counterexample: the social-search handler contains no method test at
all — a GET request with a query is served with 200 and the adapters'
items, not rejected with 405. -/
theorem c9_counterexample_social_ignores_method :
    Social.handler "GET" (some "ai") none (.ok [⟨"X", "bob", "hello ai", "https://x.com/1"⟩])
        (.ok []) (.ok []) (.ok [])
      = ⟨200, .items [⟨"X", "bob", "hello ai", "https://x.com/1"⟩]⟩
    ∧ (Social.handler "GET" (some "ai") none (.ok [⟨"X", "bob", "hello ai", "https://x.com/1"⟩])
        (.ok []) (.ok []) (.ok [])).status ≠ 405 :=
  ⟨rfl, by decide⟩

/-- C9 amended: every handler except social-search answers any method other
than POST and OPTIONS with 405 and an error body, independently of all
other inputs (so no search or model call influences the answer);
social-search ignores the request method entirely and serves every method
alike. -/
theorem c9_amended_method_gate (method : String)
    (hpost : method ≠ "POST") (hopt : method ≠ "OPTIONS") :
    (∀ q ts dF feeds rF wF, Search1.handler method q ts dF feeds rF wF
        = ⟨405, .failure "Method not allowed"⟩)
    ∧ (∀ q dF rF wF nF gk gs, Part000.handler method q dF rF wF nF gk gs
        = ⟨405, .failure "Method not allowed"⟩)
    ∧ (∀ q dF rF wF nF, Part001.handler method q dF rF wF nF
        = ⟨405, .failure "Method not allowed"⟩)
    ∧ (∀ prompt project userId stored gem wf,
        Gen2.handler method prompt project userId stored gem wf
          = ⟨405, .failure "Method not allowed", stored, none⟩)
    ∧ (∀ prompt userId stored sd gem wf,
        Gen3.handler method prompt userId stored sd gem wf
          = ⟨405, .failure "Method not allowed", stored, none⟩)
    ∧ (∀ m2 q srcs xR rR iR yR, Social.handler method q srcs xR rR iR yR
        = Social.handler m2 q srcs xR rR iR yR) := by
  have h1 : (method == "OPTIONS") = false := by
    simp [hopt]
  have h2 : (method != "POST") = true := by
    simp [hpost]
  refine ⟨?_, ?_, ?_, ?_, ?_, ?_⟩
  · intro q ts dF feeds rF wF
    simp [Search1.handler, h1, h2]
  · intro q dF rF wF nF gk gs
    simp [Part000.handler, h1, h2]
  · intro q dF rF wF nF
    simp [Part001.handler, h1, h2]
  · intro prompt project userId stored gem wf
    simp [Gen2.handler, h1, h2]
  · intro prompt userId stored sd gem wf
    simp [Gen3.handler, h1, h2]
  · intro m2 q srcs xR rR iR yR
    rfl

/-- Witness for the amended C9: a GET to the `part_000` handler is a 405. -/
theorem c9_amended_method_gate_witness :
    ("GET" : String) ≠ "POST"
    ∧ Part000.handler "GET" (some "ai") (.error ()) (.error ()) (.error ()) (.error ())
        false (.error ())
      = ⟨405, .failure "Method not allowed"⟩ :=
  ⟨by decide,
    (c9_amended_method_gate "GET" (by decide) (by decide)).2.1 (some "ai")
      (.error ()) (.error ()) (.error ()) (.error ()) false (.error ())⟩

/-- C10: whenever the chat-model call fails (fetch rejection or non-success
status), neither chat handler writes the record: the stored file after the
request is exactly what it was before, so the appended user turn exists
only in memory. -/
theorem c10_no_save_on_model_failure
    (prompt userId : String) (project : Option String)
    (stored2 : Option (Except Unit Gen2.Memory)) (stored3 : Option (Except Unit Gen3.Memory))
    (sd : Option Gen3.SearchData) (gem : Except Unit GeminiResp) (wf : Bool)
    (hfail : gem = .error () ∨ ∃ g, gem = .ok g ∧ geminiOk g = false) :
    (Gen2.handler "POST" prompt project userId stored2 gem wf).store = stored2
    ∧ (Gen3.handler "POST" prompt userId stored3 sd gem wf).store = stored3 := by
  rcases hfail with h | ⟨g, hg, hok⟩
  · subst h
    constructor
    · unfold Gen2.handler
      split
      · rfl
      split
      · rfl
      split
      · rfl
      rfl
    · unfold Gen3.handler
      split
      · rfl
      split
      · rfl
      split
      · rfl
      rfl
  · subst hg
    constructor
    · unfold Gen2.handler
      split
      · rfl
      split
      · rfl
      split
      · rfl
      simp [hok]
    · unfold Gen3.handler
      split
      · rfl
      split
      · rfl
      split
      · rfl
      simp [hok]

/-- Witness for C10 at a concrete failing call: the store stays empty. -/
theorem c10_no_save_on_model_failure_witness :
    (Gen2.handler "POST" "hi" none "u1" none (.error ()) false).store = none :=
  (c10_no_save_on_model_failure "hi" "u1" none none none none (.error ()) false (Or.inl rfl)).1
